import Mathlib

/-!
Verification development for the manual single-channel audio mixer
(`struct audiocontrol`) of src/main.cpp.

The mixer state is the triple (`sample`, `sample_size`, `played_bytes`)
guarded in the source by a mutex; here each operation is modelled as a
pure state transformer executed atomically (all claims are about the
sequential contract inside the critical sections).

Machine-integer detail kept from the source: `play_sample` receives a
`Uint32 new_size` and stores it into the `int sample_size` field, a
two's-complement reinterpretation modelled by `toInt32`.  `produce`
takes an `int len`; `played_bytes` is an `int` that in the states the
claims range over never leaves [0, 2^31), so it is carried as an
unbounded `Int`.

Source detail preserved exactly: `produce` copies with
`SDL_memmove(stream, sample, written_bytes)`, i.e. always from the
START of the sample buffer, not from `sample + played_bytes`, even
though it advances `played_bytes` by the amount copied.
-/

/-- C conversion of an unsigned 32-bit value to a signed 32-bit `int`
(two's-complement reinterpretation), as performed when `play_sample`
stores its `Uint32 new_size` argument into the `int sample_size` field. -/
def toInt32 (n : Nat) : Int :=
  if n % 2 ^ 32 < 2 ^ 31 then ((n % 2 ^ 32 : Nat) : Int)
  else ((n % 2 ^ 32 : Nat) : Int) - 2 ^ 32

/-- State of `struct audiocontrol` (src/main.cpp lines 65-70), restricted
to the fields the mixing contract touches.  `sample i` is the byte at
offset `i` of the buffer pointed to by `Uint8 *sample`. -/
structure audiocontrol where
  sample : Nat → Nat
  sample_size : Int
  played_bytes : Int

/-- The constructor `audiocontrol()` (src/main.cpp line 72): null sample,
`sample_size = 0`, `played_bytes = 0`.  The null pointer is represented
by the all-zero buffer; it is never dereferenced because `produce` only
reads `sample` when `played_bytes < sample_size`. -/
def audiocontrol.init : audiocontrol :=
  { sample := fun _ => 0, sample_size := 0, played_bytes := 0 }

/-- `play_sample(Uint8 *new_sample, Uint32 new_size)`
(src/main.cpp lines 82-88): replaces the sample pointer, stores the
unsigned size into the signed `int` field, resets `played_bytes` to 0. -/
def audiocontrol.play_sample (a : audiocontrol) (new_sample : Nat → Nat)
    (new_size : Nat) : audiocontrol :=
  { sample := new_sample, sample_size := toInt32 new_size, played_bytes := 0 }

/-- `produce(Uint8 *stream, int len)` (src/main.cpp lines 90-102).
Returns the bytes written to `stream[0:len]` together with the updated
state.  If `played_bytes < sample_size`, it copies
`written_bytes = min(len, sample_size - played_bytes)` bytes with
`SDL_memmove(stream, sample, written_bytes)` — source address `sample`,
offset 0 — and advances `played_bytes`; then, if `written_bytes < len`,
zero-fills the remainder with `SDL_memset`. -/
def audiocontrol.produce (a : audiocontrol) (len : Int) :
    List Nat × audiocontrol :=
  if a.played_bytes < a.sample_size then
    let written_bytes : Int := min len (a.sample_size - a.played_bytes)
    ((List.range written_bytes.toNat).map a.sample
        ++ List.replicate (len - written_bytes).toNat 0,
      { a with played_bytes := a.played_bytes + written_bytes })
  else
    (List.replicate len.toNat 0, a)

/-- A run of successive `produce` calls with the given lengths:
the list of output buffers delivered, and the final state. -/
def runFills (a : audiocontrol) : List Int → List (List Nat) × audiocontrol
  | [] => ([], a)
  | len :: rest =>
    let r := a.produce len
    let rr := runFills r.2 rest
    (r.1 :: rr.1, rr.2)

/-- One call of the mixer's public interface: either
`play_sample`/`set_current_sample` with a buffer and a `Uint32` size, or
`produce`/`fill` with an `int` length. -/
inductive MixerOp : Type
  | set : (Nat → Nat) → Nat → MixerOp
  | fill : Int → MixerOp

/-- Run a sequence of mixer operations from a starting state. -/
def runOps (a : audiocontrol) : List MixerOp → audiocontrol
  | [] => a
  | MixerOp.set d n :: rest => runOps (a.play_sample d n) rest
  | MixerOp.fill len :: rest => runOps (a.produce len).2 rest

/-- Operation within the range the spec's invariant claim quantifies
over: sample sizes below 2^31 (so the stored `int` is nonnegative) and
positive fill lengths. -/
def goodOp : MixerOp → Prop
  | MixerOp.set _ n => n < 2 ^ 31
  | MixerOp.fill len => 0 < len

/-- The 10-byte sample [1,2,...,10] of the spec's concrete scenario. -/
def sample10 : Nat → Nat := fun i => i + 1

-- Helper lemmas -------------------------------------------------------

theorem toInt32_of_lt {n : Nat} (h : n < 2 ^ 31) : toInt32 n = (n : Int) := by
  have h32 : n < 2 ^ 32 := lt_of_lt_of_le h (by norm_num)
  unfold toInt32
  rw [Nat.mod_eq_of_lt h32, if_pos h]

theorem toInt32_of_ge {n : Nat} (h1 : 2 ^ 31 ≤ n) (h2 : n < 2 ^ 32) :
    toInt32 n = (n : Int) - 2 ^ 32 := by
  unfold toInt32
  rw [Nat.mod_eq_of_lt h2, if_neg (by omega)]

theorem produce_of_exhausted {a : audiocontrol}
    (h : a.sample_size ≤ a.played_bytes) (len : Int) :
    a.produce len = (List.replicate len.toNat 0, a) := by
  have : ¬ a.played_bytes < a.sample_size := not_lt.mpr h
  simp [audiocontrol.produce, this]

theorem runFills_of_exhausted {a : audiocontrol}
    (h : a.sample_size ≤ a.played_bytes) (lens : List Int) :
    runFills a lens = (lens.map fun len => List.replicate len.toNat 0, a) := by
  induction lens with
  | nil => simp [runFills]
  | cons len rest ih =>
    simp [runFills, produce_of_exhausted h, ih]

theorem produce_fields (a : audiocontrol) (len : Int) :
    (a.produce len).2.sample = a.sample ∧
      (a.produce len).2.sample_size = a.sample_size := by
  by_cases h : a.played_bytes < a.sample_size <;>
    simp [audiocontrol.produce, h]

theorem runOps_invariant (ops : List MixerOp) :
    ∀ a : audiocontrol, (∀ op ∈ ops, goodOp op) →
      0 ≤ a.played_bytes → a.played_bytes ≤ a.sample_size →
      0 ≤ (runOps a ops).played_bytes ∧
        (runOps a ops).played_bytes ≤ (runOps a ops).sample_size := by
  induction ops with
  | nil => intro a _ h0 h1; exact ⟨h0, h1⟩
  | cons op rest ih =>
    intro a hg h0 h1
    cases op with
    | set d n =>
      have hn : n < 2 ^ 31 := hg (MixerOp.set d n) (by simp)
      simp only [runOps]
      refine ih _ (fun op hop => hg op (by simp [hop])) (by simp [audiocontrol.play_sample]) ?_
      simp [audiocontrol.play_sample, toInt32_of_lt hn]
    | fill len =>
      have hl : 0 < len := hg (MixerOp.fill len) (by simp)
      simp only [runOps]
      refine ih _ (fun op hop => hg op (by simp [hop])) ?_ ?_
      · by_cases hp : (a.produce len).2.played_bytes = a.played_bytes
        · omega
        · by_cases h : a.played_bytes < a.sample_size
          · have hm : (0:Int) ≤ min len (a.sample_size - a.played_bytes) :=
              le_min hl.le (by omega)
            simp only [audiocontrol.produce, if_pos h]
            omega
          · simp only [audiocontrol.produce, if_neg h]
            omega
      · by_cases h : a.played_bytes < a.sample_size
        · have hm : min len (a.sample_size - a.played_bytes) ≤
              a.sample_size - a.played_bytes := min_le_right _ _
          simp only [audiocontrol.produce, if_pos h]
          omega
        · simp only [audiocontrol.produce, if_neg h]
          omega

-- Claim theorems ------------------------------------------------------

/-- Claim C1 (code bug evaluation): the spec says `fill` copies from
`data[cursor:]`, so the scenario sample [1..10] should deliver
[1,2,3,4], [5,6,7,8], [9,10,0,0].  The code copies from the start of
the sample on every call (`SDL_memmove(stream, sample, written_bytes)`),
so while the first fill matches ([1,2,3,4], cursor 4), the second fill
returns [1,2,3,4] again — not [5,6,7,8] — with cursor 8, and the third
returns [1,2,0,0]. -/
theorem C1_bug_eval :
    (((audiocontrol.init.play_sample sample10 10).produce 4).1 = [1, 2, 3, 4] ∧
      ((audiocontrol.init.play_sample sample10 10).produce 4).2.played_bytes = 4) ∧
    ((((audiocontrol.init.play_sample sample10 10).produce 4).2.produce 4).1 = [1, 2, 3, 4] ∧
      (((audiocontrol.init.play_sample sample10 10).produce 4).2.produce 4).1 ≠ [5, 6, 7, 8] ∧
      (((audiocontrol.init.play_sample sample10 10).produce 4).2.produce 4).2.played_bytes = 8) ∧
    ((((audiocontrol.init.play_sample sample10 10).produce 4).2.produce 4).2.produce 4).1 =
      [1, 2, 0, 0] := by
  decide

/-- Claim C2, counterexample to the literal statement: after
`set_current_sample(d, 2^31)` — a legal `Uint32` argument — the stored
`int sample_size` is -2^31, so `cursor ≤ total_length` fails already at
cursor 0 before any `fill`. -/
theorem C2_counterexample :
    ¬ ((audiocontrol.init.play_sample (fun _ => 0) (2 ^ 31)).played_bytes ≤
        (audiocontrol.init.play_sample (fun _ => 0) (2 ^ 31)).sample_size) := by
  decide

/-- Claim C2 (amended): for every sequence of operations in which each
`set_current_sample` size is below 2^31 and each `fill` length is
positive, the state reached from the initial mixer satisfies
`0 ≤ cursor ≤ total_length`. -/
theorem C2_cursor_bounds (ops : List MixerOp) (hg : ∀ op ∈ ops, goodOp op) :
    0 ≤ (runOps audiocontrol.init ops).played_bytes ∧
      (runOps audiocontrol.init ops).played_bytes ≤
        (runOps audiocontrol.init ops).sample_size :=
  runOps_invariant ops audiocontrol.init hg (by simp [audiocontrol.init])
    (by simp [audiocontrol.init])

/-- Witness for C2 at the concrete run set(sample10,10); fill 4; fill 4. -/
theorem C2_cursor_bounds_witness :
    (∀ op ∈ [MixerOp.set sample10 10, MixerOp.fill 4, MixerOp.fill 4], goodOp op) ∧
      (0 ≤ (runOps audiocontrol.init
            [MixerOp.set sample10 10, MixerOp.fill 4, MixerOp.fill 4]).played_bytes ∧
        (runOps audiocontrol.init
            [MixerOp.set sample10 10, MixerOp.fill 4, MixerOp.fill 4]).played_bytes ≤
          (runOps audiocontrol.init
            [MixerOp.set sample10 10, MixerOp.fill 4, MixerOp.fill 4]).sample_size) := by
  have hg : ∀ op ∈ [MixerOp.set sample10 10, MixerOp.fill 4, MixerOp.fill 4], goodOp op := by
    intro op hop
    simp only [List.mem_cons, List.not_mem_nil, or_false] at hop
    rcases hop with rfl | rfl | rfl <;> norm_num [goodOp]
  exact ⟨hg, C2_cursor_bounds _ hg⟩

/-- Claim C3: every `fill(output, len)` with positive `len` fully
populates `output[0:len]`: the result has length exactly `len` and is a
prefix of copied sample bytes followed by zeros. -/
theorem C3_full_output (a : audiocontrol) (len : Int) (h : 0 < len) :
    (a.produce len).1.length = len.toNat ∧
    ∃ k, k ≤ len.toNat ∧
      (a.produce len).1 =
        (List.range k).map a.sample ++ List.replicate (len.toNat - k) 0 := by
  by_cases hp : a.played_bytes < a.sample_size
  · have hm0 : (0:Int) ≤ min len (a.sample_size - a.played_bytes) :=
      le_min h.le (by omega)
    have hml : min len (a.sample_size - a.played_bytes) ≤ len := min_le_left _ _
    simp only [audiocontrol.produce, if_pos hp]
    refine ⟨?_, (min len (a.sample_size - a.played_bytes)).toNat, by omega, ?_⟩
    · simp only [List.length_append, List.length_map, List.length_range,
        List.length_replicate]
      omega
    · have he : (len - min len (a.sample_size - a.played_bytes)).toNat =
          len.toNat - (min len (a.sample_size - a.played_bytes)).toNat := by omega
      rw [he]
  · simp only [audiocontrol.produce, if_neg hp]
    exact ⟨by simp, 0, by omega, by simp⟩

/-- Witness for C3 at the scenario state and len 4. -/
theorem C3_full_output_witness :
    (0:Int) < 4 ∧
      (((audiocontrol.init.play_sample sample10 10).produce 4).1.length = (4:Int).toNat ∧
        ∃ k, k ≤ (4:Int).toNat ∧
          ((audiocontrol.init.play_sample sample10 10).produce 4).1 =
            (List.range k).map (audiocontrol.init.play_sample sample10 10).sample ++
              List.replicate ((4:Int).toNat - k) 0) :=
  ⟨by norm_num, C3_full_output _ 4 (by norm_num)⟩

/-- Claim C4: a second `set_current_sample(B, lenB)` with no intervening
`fill` leaves a state identical to one that never saw A (so no byte of A
can ever be delivered), and with lenB = 3 a subsequent `fill(buf, 3)`
returns exactly B's 3 bytes. -/
theorem C4_replace_discards (a : audiocontrol) (A : Nat → Nat) (lenA : Nat)
    (B : Nat → Nat) (lenB : Nat) :
    (a.play_sample A lenA).play_sample B lenB =
        audiocontrol.init.play_sample B lenB ∧
      (((a.play_sample A lenA).play_sample B 3).produce 3).1 = [B 0, B 1, B 2] :=
  ⟨rfl, rfl⟩

/-- Claim C5: once `cursor` has reached `total_length`
(`sample_size ≤ played_bytes`), every further run of `fill` calls
yields all-zero buffers of the requested lengths and leaves the state
unchanged (hence silence persists until the next `set_current_sample`). -/
theorem C5_exhaustion_silence (a : audiocontrol)
    (h : a.sample_size ≤ a.played_bytes) (lens : List Int) :
    runFills a lens = (lens.map fun len => List.replicate len.toNat 0, a) :=
  runFills_of_exhausted h lens

/-- Witness for C5: the scenario sample exhausted by one fill of 10,
then two fills of 4. -/
theorem C5_exhaustion_witness :
    (((audiocontrol.init.play_sample sample10 10).produce 10).2.sample_size ≤
        ((audiocontrol.init.play_sample sample10 10).produce 10).2.played_bytes) ∧
      runFills ((audiocontrol.init.play_sample sample10 10).produce 10).2 [4, 4] =
        (([4, 4] : List Int).map fun len => List.replicate len.toNat 0,
          ((audiocontrol.init.play_sample sample10 10).produce 10).2) :=
  ⟨by decide, C5_exhaustion_silence _ (by decide) [4, 4]⟩

/-- Claim C6: on a freshly constructed mixer, and likewise after
`set_current_sample(d, 0)`, every run of `fill` calls yields all-zero
buffers of the requested lengths, with the state unchanged (so the
behavior repeats for arbitrarily many calls). -/
theorem C6_initial_silence (lens : List Int) :
    runFills audiocontrol.init lens =
      (lens.map fun len => List.replicate len.toNat 0, audiocontrol.init) ∧
    ∀ (a : audiocontrol) (d : Nat → Nat),
      runFills (a.play_sample d 0) lens =
        (lens.map fun len => List.replicate len.toNat 0, a.play_sample d 0) := by
  constructor
  · exact runFills_of_exhausted (by simp [audiocontrol.init]) lens
  · intro a d
    refine runFills_of_exhausted ?_ lens
    simp [audiocontrol.play_sample,
      toInt32_of_lt (by norm_num : (0:Nat) < 2 ^ 31)]

/-- Claim C7, counterexample to the literal statement: for the legal
`Uint32` argument 2^31 the stored `total_length` is not 2^31 (it is
-2^31 after the signed reinterpretation). -/
theorem C7_counterexample :
    (audiocontrol.init.play_sample (fun _ => 0) (2 ^ 31)).sample_size ≠
      ((2 ^ 31 : Nat) : Int) := by
  decide

/-- Claim C7 (amended): for every prior state and every input (d, L)
with L < 2^31, `set_current_sample(d, L)` leaves the mixer in exactly
the state (data = d, total_length = L, cursor = 0), regardless of the
prior state. -/
theorem C7_set_state (a : audiocontrol) (d : Nat → Nat) (L : Nat)
    (h : L < 2 ^ 31) :
    a.play_sample d L =
      { sample := d, sample_size := (L : Int), played_bytes := 0 } := by
  simp [audiocontrol.play_sample, toInt32_of_lt h]

/-- Witness for C7 at L = 7 from the initial state. -/
theorem C7_set_state_witness :
    (7 : Nat) < 2 ^ 31 ∧
      audiocontrol.init.play_sample (fun _ => 3) 7 =
        { sample := fun _ => 3, sample_size := (7 : Int), played_bytes := 0 } :=
  ⟨by norm_num, C7_set_state _ _ 7 (by norm_num)⟩

/-- Claim C8 (frame conditions): `fill` changes no field other than
`played_bytes` — the data reference and `total_length` are returned
unchanged by every `produce` call — and `set_current_sample` stores the
caller's buffer unmodified (the model's buffers are read-only: no
operation writes through `sample`). -/
theorem C8_frame (a : audiocontrol) (len : Int) (d : Nat → Nat) (n : Nat) :
    (a.produce len).2.sample = a.sample ∧
      (a.produce len).2.sample_size = a.sample_size ∧
      (a.play_sample d n).sample = d := by
  obtain ⟨h1, h2⟩ := produce_fields a len
  exact ⟨h1, h2, rfl⟩

/-- Claim C9: `fill(output, 0)` is a total no-op in every mixer state:
no byte is written and the whole state is unchanged. -/
theorem C9_zero_len_noop (a : audiocontrol) : a.produce 0 = ([], a) := by
  by_cases h : a.played_bytes < a.sample_size
  · have hm : min (0:Int) (a.sample_size - a.played_bytes) = 0 :=
      min_eq_left (by omega)
    simp [audiocontrol.produce, h, hm]
  · simp [audiocontrol.produce, h]

/-- Claim C10: `set_current_sample` takes a `Uint32` size but stores it
in a signed 32-bit field: for new_size < 2^31 the stored `total_length`
is new_size; for 2^31 ≤ new_size < 2^32 it is new_size - 2^32, negative,
and every subsequent run of `fill` calls emits only silence. -/
theorem C10_size_wrap (n : Nat) (h32 : n < 2 ^ 32) :
    (n < 2 ^ 31 → ∀ (a : audiocontrol) (d : Nat → Nat),
      (a.play_sample d n).sample_size = (n : Int)) ∧
    (2 ^ 31 ≤ n → ∀ (a : audiocontrol) (d : Nat → Nat),
      (a.play_sample d n).sample_size = (n : Int) - 2 ^ 32 ∧
      (a.play_sample d n).sample_size < 0 ∧
      ∀ lens : List Int,
        runFills (a.play_sample d n) lens =
          (lens.map fun len => List.replicate len.toNat 0,
            a.play_sample d n)) := by
  constructor
  · intro h a d
    simp [audiocontrol.play_sample, toInt32_of_lt h]
  · intro h a d
    have hs : (a.play_sample d n).sample_size = (n : Int) - 2 ^ 32 := by
      simp [audiocontrol.play_sample, toInt32_of_ge h h32]
    have hn32 : (n : Int) < 2 ^ 32 := by exact_mod_cast h32
    have hneg : (a.play_sample d n).sample_size < 0 := by omega
    have hpb : (a.play_sample d n).played_bytes = 0 := rfl
    exact ⟨hs, hneg, fun lens => runFills_of_exhausted (by omega) lens⟩

/-- Witness for C10 at new_size = 2^31. -/
theorem C10_size_wrap_witness :
    ((2 ^ 31 : Nat) < 2 ^ 32) ∧
      (((2 ^ 31 : Nat) < 2 ^ 31 → ∀ (a : audiocontrol) (d : Nat → Nat),
          (a.play_sample d (2 ^ 31)).sample_size = ((2 ^ 31 : Nat) : Int)) ∧
        (2 ^ 31 ≤ (2 ^ 31 : Nat) → ∀ (a : audiocontrol) (d : Nat → Nat),
          (a.play_sample d (2 ^ 31)).sample_size = ((2 ^ 31 : Nat) : Int) - 2 ^ 32 ∧
          (a.play_sample d (2 ^ 31)).sample_size < 0 ∧
          ∀ lens : List Int,
            runFills (a.play_sample d (2 ^ 31)) lens =
              (lens.map fun len => List.replicate len.toNat 0,
                a.play_sample d (2 ^ 31)))) :=
  ⟨by norm_num, C10_size_wrap (2 ^ 31) (by norm_num)⟩
